import Mathlib

/-!
Verification of the paged I/O, load-job and path-validation logic of the
alluxiofs client (`alluxiofs/client/core.py`).

The embedding models byte strings as `List Nat`, HTTP page fetches and page
writes as oracle functions supplied by the caller (a fetch either returns
content, `some bytes`, or raises, `none`), and each translated function
follows the control flow of the corresponding Python method.  Loops that
Python runs until a data-dependent break are modelled with an explicit fuel
argument chosen large enough that the fuel-exhausted branch is unreachable
for the fuel the wrapper supplies.
-/

/-- Byte strings: each element is one byte value. -/
abbrev Bytes := List Nat

/-- Parameters of one page request issued by `_range_page_generator`:
the page index, the in-page offset (`read_offset`) and the in-page byte
count (`read_length`).  The generator always calls `_read_page` with both
`offset` and `length` set, so every request it issues carries all three
fields. -/
structure RangeReq where
  pageIndex : Nat
  readOffset : Nat
  readLength : Nat
deriving DecidableEq, Repr

/-- The request the loop body of `AlluxioClient._range_page_generator`
computes for iteration `pageIndex`, given `self.config.page_size = ps` and
the requested byte range `(offset, length)`.  Mirrors the assignments to
`read_offset` / `read_length` in core.py lines 1139-1150 (defaults `0` and
`page_size`, overridden on the start and end pages). -/
def pageReq (ps offset length pageIndex : Nat) : RangeReq :=
  let startPageIndex := offset / ps
  let startPageOffset := offset % ps
  let endPageIndex := (offset + length - 1) / ps
  let endPageReadTo := (offset + length - 1) % ps + 1
  if pageIndex = startPageIndex then
    if startPageIndex = endPageIndex then
      ⟨pageIndex, startPageOffset, endPageReadTo - startPageOffset⟩
    else
      ⟨pageIndex, startPageOffset, ps - startPageOffset⟩
  else if pageIndex = endPageIndex then
    ⟨pageIndex, 0, endPageReadTo⟩
  else
    ⟨pageIndex, 0, ps⟩

/-- One loop iteration of `AlluxioClient._range_page_generator`, as a
fuel-indexed recursion over ascending `pageIndex`.  `fetch` is the
`_read_page` oracle: `none` models a raised exception, `some b` a response
body `b`.  The result is the ordered list of requests issued, paired with
`none` when the exception is propagated to the caller (which the code does
only when the failing page is the start page of the range) or `some pages`
with the list of page contents yielded.  A fetch succeeding stops the loop
when the page is the end page or the response is shorter than the length
requested for that page.  The fuel-exhausted branch is unreachable when the
fuel is at least `endPageIndex + 1 - pageIndex`, since every iteration
either stops or advances `pageIndex` by one and the loop always stops at
`endPageIndex`. -/
def rangeGenLoop (ps offset length : Nat) (fetch : RangeReq → Option Bytes) :
    Nat → Nat → List RangeReq × Option (List Bytes)
  | 0, _ => ([], some [])
  | fuel + 1, pageIndex =>
    let req := pageReq ps offset length pageIndex
    match fetch req with
    | none =>
      if pageIndex = offset / ps then ([req], none) else ([req], some [])
    | some content =>
      if pageIndex = (offset + length - 1) / ps ∨
          content.length < req.readLength then
        ([req], some [content])
      else
        let r := rangeGenLoop ps offset length fetch fuel (pageIndex + 1)
        (req :: r.1, r.2.map (fun rest => content :: rest))

/-- The drained generator, as consumed by `AlluxioClient.read_range`
(`b"".join(self._range_page_generator(...))`): the requests issued in
order, and either `none` (an exception reached the caller) or the
concatenation of the yielded page contents.  Only called with
`length ≥ 1`: `read_range` returns early on `length == 0` and raises on
negative lengths. -/
def rangePageGenerator (ps offset length : Nat)
    (fetch : RangeReq → Option Bytes) : List RangeReq × Option Bytes :=
  let startPageIndex := offset / ps
  let endPageIndex := (offset + length - 1) / ps
  let r := rangeGenLoop ps offset length fetch
    (endPageIndex + 1 - startPageIndex) startPageIndex
  (r.1, r.2.map List.flatten)

/-- Fetch oracle of a worker holding a file with byte content `content`,
paged with page size `ps`: a ranged page request returns the slice of the
file starting at `pageIndex * ps + readOffset` of at most `readLength`
bytes, truncated at end of file (the short response is the end-of-file
signal). -/
def fileFetch (content : Bytes) (ps : Nat) (r : RangeReq) : Option Bytes :=
  some ((content.drop (r.pageIndex * ps + r.readOffset)).take r.readLength)

/-- Consecutive naturals `a, a+1, ..., a+n-1`. -/
def natSeq : Nat → Nat → List Nat
  | _, 0 => []
  | a, n + 1 => a :: natSeq (a + 1) n

theorem natSeq_length (a n : Nat) : (natSeq a n).length = n := by
  induction n generalizing a with
  | zero => rfl
  | succ n ih => simp [natSeq, ih]

/-- Behaviour of the generator loop when every fetch before page `k`
returns exactly the requested number of bytes and the fetch at page `k`
succeeds but satisfies the stop condition (it is the end page, or it is
short): the loop issues exactly the requests for pages `pi .. k` and
yields the fetched contents in page order. -/
theorem rangeGenLoop_ok (ps offset length : Nat)
    (fetch : RangeReq → Option Bytes) (cont : Nat → Bytes) (k : Nat)
    (hfull : ∀ j, j < k → offset / ps ≤ j →
      fetch (pageReq ps offset length j) = some (cont j) ∧
      (cont j).length = (pageReq ps offset length j).readLength)
    (hk : fetch (pageReq ps offset length k) = some (cont k))
    (hstop : k = (offset + length - 1) / ps ∨
      (cont k).length < (pageReq ps offset length k).readLength) :
    ∀ fuel pi, offset / ps ≤ pi → pi ≤ k →
      k ≤ (offset + length - 1) / ps → k + 1 - pi ≤ fuel →
      rangeGenLoop ps offset length fetch fuel pi =
        ((natSeq pi (k + 1 - pi)).map (pageReq ps offset length),
         some ((natSeq pi (k + 1 - pi)).map cont)) := by
  intro fuel
  induction fuel with
  | zero => intro pi _ h2 _ h4; omega
  | succ fuel ih =>
    intro pi h1 h2 h3 h4
    rcases Nat.eq_or_lt_of_le h2 with heq | hlt
    · subst heq
      have hseq : pi + 1 - pi = 1 := by omega
      rw [hseq]
      simp only [rangeGenLoop, hk, natSeq, List.map_cons, List.map_nil]
      rw [if_pos hstop]
    · have hj := hfull pi hlt h1
      have hne : ¬(pi = (offset + length - 1) / ps ∨
          (cont pi).length < (pageReq ps offset length pi).readLength) := by
        push_neg
        exact ⟨by omega, by rw [hj.2]⟩
      simp only [rangeGenLoop, hj.1]
      rw [if_neg hne, ih (pi + 1) (by omega) (by omega) h3 (by omega)]
      have hseq : k + 1 - pi = (k + 1 - (pi + 1)) + 1 := by omega
      rw [hseq]
      simp [natSeq]

/-- Behaviour of the generator loop when every fetch before page `k`
returns exactly the requested number of bytes and the fetch at page `k`
raises: the loop issues exactly the requests for pages `pi .. k`; the
exception propagates when `k` is the start page of the range, and
otherwise the contents already fetched are yielded. -/
theorem rangeGenLoop_err (ps offset length : Nat)
    (fetch : RangeReq → Option Bytes) (cont : Nat → Bytes) (k : Nat)
    (hfull : ∀ j, j < k → offset / ps ≤ j →
      fetch (pageReq ps offset length j) = some (cont j) ∧
      (cont j).length = (pageReq ps offset length j).readLength)
    (hk : fetch (pageReq ps offset length k) = none) :
    ∀ fuel pi, offset / ps ≤ pi → pi ≤ k →
      k ≤ (offset + length - 1) / ps → k + 1 - pi ≤ fuel →
      rangeGenLoop ps offset length fetch fuel pi =
        ((natSeq pi (k + 1 - pi)).map (pageReq ps offset length),
         if k = offset / ps then none
         else some ((natSeq pi (k - pi)).map cont)) := by
  intro fuel
  induction fuel with
  | zero => intro pi _ h2 _ h4; omega
  | succ fuel ih =>
    intro pi h1 h2 h3 h4
    rcases Nat.eq_or_lt_of_le h2 with heq | hlt
    · subst heq
      have hseq : pi + 1 - pi = 1 := by omega
      have hseq0 : pi - pi = 0 := by omega
      rw [hseq, hseq0]
      simp only [rangeGenLoop, hk, natSeq, List.map_cons, List.map_nil]
      by_cases hs : pi = offset / ps
      · rw [if_pos hs, if_pos hs]
      · rw [if_neg hs, if_neg hs]
    · have hj := hfull pi hlt h1
      have hne : ¬(pi = (offset + length - 1) / ps ∨
          (cont pi).length < (pageReq ps offset length pi).readLength) := by
        push_neg
        exact ⟨by omega, by rw [hj.2]⟩
      have hks : k ≠ offset / ps := by omega
      simp only [rangeGenLoop, hj.1]
      rw [if_neg hne, ih (pi + 1) (by omega) (by omega) h3 (by omega)]
      rw [if_neg hks, if_neg hks]
      have hseq : k + 1 - pi = (k + 1 - (pi + 1)) + 1 := by omega
      have hseq' : k - pi = (k - (pi + 1)) + 1 := by omega
      rw [hseq, hseq']
      simp [natSeq]

/-- C2 — for a range read, if every page before `k` answers in full and the
fetch of page `k` returns fewer bytes than requested for it, the engine
issues requests only for pages `start .. k` (no later page is contacted)
and returns the concatenation of the earlier pages' bytes with the short
page's bytes. -/
theorem c2_short_read_termination (ps offset length : Nat)
    (hps : 0 < ps) (hlen : 0 < length)
    (fetch : RangeReq → Option Bytes) (cont : Nat → Bytes) (k : Nat)
    (hk1 : offset / ps ≤ k) (hk2 : k ≤ (offset + length - 1) / ps)
    (hfull : ∀ j, j < k → offset / ps ≤ j →
      fetch (pageReq ps offset length j) = some (cont j) ∧
      (cont j).length = (pageReq ps offset length j).readLength)
    (hkfetch : fetch (pageReq ps offset length k) = some (cont k))
    (hkshort : (cont k).length < (pageReq ps offset length k).readLength) :
    rangePageGenerator ps offset length fetch =
      ((natSeq (offset / ps) (k + 1 - offset / ps)).map
          (pageReq ps offset length),
       some ((natSeq (offset / ps) (k + 1 - offset / ps)).map cont).flatten) := by
  simp only [rangePageGenerator]
  rw [rangeGenLoop_ok ps offset length fetch cont k hfull hkfetch
    (Or.inr hkshort) _ _ (Nat.le_refl _) hk1 hk2 (by omega)]
  simp

/-- C3 — failure asymmetry of the range read: an exception while fetching
the start page of the range propagates to the caller (`none`), while an
exception on any later page `k` ends the read with the bytes of pages
`start .. k-1` returned as a successful partial result; in both cases no
page after `k` is contacted. -/
theorem c3_failure_asymmetry (ps offset length : Nat)
    (hps : 0 < ps) (hlen : 0 < length)
    (fetch : RangeReq → Option Bytes) (cont : Nat → Bytes) (k : Nat)
    (hk1 : offset / ps ≤ k) (hk2 : k ≤ (offset + length - 1) / ps)
    (hfull : ∀ j, j < k → offset / ps ≤ j →
      fetch (pageReq ps offset length j) = some (cont j) ∧
      (cont j).length = (pageReq ps offset length j).readLength)
    (hkerr : fetch (pageReq ps offset length k) = none) :
    rangePageGenerator ps offset length fetch =
      ((natSeq (offset / ps) (k + 1 - offset / ps)).map
          (pageReq ps offset length),
       if k = offset / ps then none
       else some ((natSeq (offset / ps) (k - offset / ps)).map cont).flatten) := by
  simp only [rangePageGenerator]
  rw [rangeGenLoop_err ps offset length fetch cont k hfull hkerr
    _ _ (Nat.le_refl _) hk1 hk2 (by omega)]
  by_cases hs : k = offset / ps
  · rw [if_pos hs, if_pos hs]
    rfl
  · rw [if_neg hs, if_neg hs]
    simp

/-- Worker oracle for the C2 witness: a three-page range over a file where
page 0 answers with its full 10 requested bytes and page 1 answers with
only 7 of the 10 bytes requested for it. -/
def fetchShortPage1 (r : RangeReq) : Option Bytes :=
  if r.pageIndex = 0 then some (List.replicate 10 7)
  else if r.pageIndex = 1 then some (List.replicate 7 7)
  else some (List.replicate 10 7)

/-- Page contents matching `fetchShortPage1`. -/
def contShortPage1 (j : Nat) : Bytes :=
  if j = 0 then List.replicate 10 7 else List.replicate 7 7

/-- Witness for C2: with page size 10 and range (0, 25) — a three-page
read — a 7-byte answer to the 10-byte request on page 1 makes the engine
return the 17 bytes of pages 0 and 1 concatenated, with no request for
page 2. -/
theorem c2_witness :
    rangePageGenerator 10 0 25 fetchShortPage1 =
      ([⟨0, 0, 10⟩, ⟨1, 0, 10⟩], some (List.replicate 17 7)) := by
  have h := c2_short_read_termination 10 0 25 (by decide) (by decide)
    fetchShortPage1 contShortPage1 1 (by decide) (by decide)
    (by decide) (by decide) (by decide)
  exact h.trans (by decide)

/-- Worker oracle for the C3 witness, failing case on the start page:
every fetch raises. -/
def fetchErrStart (_ : RangeReq) : Option Bytes := none

/-- Worker oracle for the C3 witness, failing case on a later page:
page 0 answers in full, every later fetch raises. -/
def fetchErrPage1 (r : RangeReq) : Option Bytes :=
  if r.pageIndex = 0 then some (List.replicate 10 7) else none

/-- Witness for C3: for the three-page range (0, 25) with page size 10, a
raise on page 0 propagates to the caller, while a raise on page 1 returns
page 0's ten bytes as a successful partial result without contacting
page 2. -/
theorem c3_witness :
    rangePageGenerator 10 0 25 fetchErrStart = ([⟨0, 0, 10⟩], none) ∧
    rangePageGenerator 10 0 25 fetchErrPage1 =
      ([⟨0, 0, 10⟩, ⟨1, 0, 10⟩], some (List.replicate 10 7)) := by
  constructor
  · have h := c3_failure_asymmetry 10 0 25 (by decide) (by decide)
      fetchErrStart contShortPage1 0 (by decide) (by decide)
      (by decide) (by decide)
    exact h.trans (by decide)
  · have h := c3_failure_asymmetry 10 0 25 (by decide) (by decide)
      fetchErrPage1 contShortPage1 1 (by decide) (by decide)
      (by decide) (by decide)
    exact h.trans (by decide)

/-- Counterexample for C1: with page size 10 over a 25-byte file,
`readRange(path, 5, 15)` issues exactly two requests — page 0 at in-page
offset 5 for length 5 and page 1 at in-page offset 0 for length 10 — so no
request for page 2 is ever issued, refuting the claimed three-request
breakdown; the read does return 15 bytes (bytes 5..19 of the file). -/
theorem c1_counterexample :
    (rangePageGenerator 10 5 15 (fileFetch (List.range 25) 10)).1 =
      [⟨0, 5, 5⟩, ⟨1, 0, 10⟩] ∧
    ((rangePageGenerator 10 5 15 (fileFetch (List.range 25) 10)).1.map
        RangeReq.pageIndex).contains 2 = false ∧
    (rangePageGenerator 10 5 15 (fileFetch (List.range 25) 10)).2 =
      some ((List.range 25).drop 5 |>.take 15) := by
  decide

/-- C1 (amended) — for page size 10 over any 25-byte file,
`readRange(path, 5, 15)` issues exactly the requests page 0 at in-page
offset 5 for length 5 and page 1 at in-page offset 0 for length 10, and
returns the 15 bytes 5..19 of the file. -/
theorem c1_range_scenario (content : Bytes) (h25 : content.length = 25) :
    rangePageGenerator 10 5 15 (fileFetch content 10) =
      ([⟨0, 5, 5⟩, ⟨1, 0, 10⟩], some ((content.drop 5).take 15)) ∧
    ((content.drop 5).take 15).length = 15 := by
  have hlen5 : ((content.drop 5).take 5).length = 5 := by
    simp [h25]
  constructor
  · simp only [rangePageGenerator, rangeGenLoop, pageReq, fileFetch]
    norm_num [hlen5]
    have h1 : List.take 15 (List.drop 5 content) =
        List.take 5 (List.drop 5 content) ++
          List.take 10 (List.drop 10 content) := by
      rw [show (15 : Nat) = 5 + 10 from rfl, List.take_add, List.drop_drop]
    rw [h1]
  · simp [h25]

/-- Witness for C1's amended theorem at the concrete 25-byte file
`0, 1, ..., 24`. -/
theorem c1_witness :
    rangePageGenerator 10 5 15 (fileFetch (List.range 25) 10) =
      ([⟨0, 5, 5⟩, ⟨1, 0, 10⟩],
       some ((List.range 25).drop 5 |>.take 15)) ∧
    (((List.range 25).drop 5).take 15).length = 15 :=
  c1_range_scenario (List.range 25) (by decide)

/-- The slice of the input that `_all_page_generator_write` sends for page
`i`: `file_bytes[i*page_size : (i+1)*page_size]` (shorter on the final
page, empty beyond the input). -/
def pageSlice (ps : Nat) (fb : Bytes) (i : Nat) : Bytes :=
  (fb.drop (i * ps)).take ps

/-- Number of page writes `_all_page_generator_write` issues for an input
of `fb.length` bytes: the loop body runs at least once, so an empty input
still writes one (empty) page. -/
def numPages (ps : Nat) (fb : Bytes) : Nat :=
  max 1 ((fb.length + ps - 1) / ps)

/-- One loop iteration of `AlluxioClient._all_page_generator_write`
(core.py lines 1018-1046): slice `file_bytes[offset:end]` with
`end = min(offset + page_size, len(file_bytes))`, write it (a `false`
from the oracle models the raised write error, which the surrounding
`try` re-raises), then stop once `end >= len(file_bytes)`.  The result
pairs the ordered trace of `(page_index, page_bytes)` writes attempted
with `some true` on completion or `none` when a write raised.  The
fuel-exhausted branch is unreachable for fuel `numPages ps fb`. -/
def writeLoop (ps : Nat) (fb : Bytes) (write : Nat → Bytes → Bool) :
    Nat → Nat → Nat → List (Nat × Bytes) × Option Bool
  | 0, _, _ => ([], some true)
  | fuel + 1, pageIndex, offset =>
    let e := min (offset + ps) fb.length
    let pageBytes := (fb.drop offset).take (e - offset)
    if write pageIndex pageBytes then
      if fb.length ≤ e then ([(pageIndex, pageBytes)], some true)
      else
        let r := writeLoop ps fb write fuel (pageIndex + 1) (offset + ps)
        ((pageIndex, pageBytes) :: r.1, r.2)
    else ([(pageIndex, pageBytes)], none)

/-- `AlluxioClient._all_page_generator_write`: start at page index 0 and
offset 0. -/
def allPageGeneratorWrite (ps : Nat) (fb : Bytes)
    (write : Nat → Bytes → Bool) : List (Nat × Bytes) × Option Bool :=
  writeLoop ps fb write (numPages ps fb) 0 0

/-- Strictly below the page ceiling iff the page starts inside the file. -/
theorem lt_ceilPages_iff (ps L m : Nat) (hps : 0 < ps) (hL : 0 < L) :
    m < (L + ps - 1) / ps ↔ m * ps < L := by
  have h : L + ps - 1 = (L - 1) + ps := by omega
  rw [h, Nat.add_div_right _ hps, Nat.lt_succ_iff, Nat.le_div_iff_mul_le hps]
  omega

/-- The loop body's slice at page `i` (offset `i * ps`) is `pageSlice`. -/
theorem pageBytes_eq_slice (ps : Nat) (fb : Bytes) (i : Nat) :
    (fb.drop (i * ps)).take (min (i * ps + ps) fb.length - i * ps) =
      pageSlice ps fb i := by
  unfold pageSlice
  rw [List.take_eq_take]
  simp [List.length_drop]
  omega

/-- The loop's stop test `end >= len(file_bytes)` at page `i` holds iff
page `i` is the last page that `_all_page_generator_write` writes. -/
theorem writeStop_iff (ps : Nat) (hps : 0 < ps) (fb : Bytes) (i : Nat) :
    fb.length ≤ min (i * ps + ps) fb.length ↔ numPages ps fb ≤ i + 1 := by
  rcases Nat.eq_zero_or_pos fb.length with h0 | hL
  · have hdiv : (ps - 1) / ps = 0 := Nat.div_eq_of_lt (by omega)
    simp [numPages, h0, hdiv]
  · have h1 : 1 ≤ (fb.length + ps - 1) / ps :=
      (Nat.le_div_iff_mul_le hps).2 (by omega)
    have hnum : numPages ps fb = (fb.length + ps - 1) / ps := by
      simp only [numPages]
      omega
    rw [hnum]
    have hiff := lt_ceilPages_iff ps fb.length (i + 1) hps hL
    constructor
    · intro h
      by_contra hc
      push_neg at hc
      have h2 : (i + 1) * ps < fb.length := hiff.1 hc
      have h4 : (i + 1) * ps = i * ps + ps := by ring
      omega
    · intro h
      have h2 : ¬((i + 1) * ps < fb.length) := by
        intro hlt
        have := hiff.2 hlt
        omega
      have h4 : (i + 1) * ps = i * ps + ps := by ring
      omega

/-- Behaviour of the write loop when every page write succeeds: pages
`i .. numPages - 1` are written in ascending order with their slices, and
the loop reports success. -/
theorem writeLoop_ok (ps : Nat) (hps : 0 < ps) (fb : Bytes)
    (write : Nat → Bytes → Bool)
    (hok : ∀ i, i < numPages ps fb → write i (pageSlice ps fb i) = true) :
    ∀ fuel i, i < numPages ps fb → numPages ps fb - i ≤ fuel →
      writeLoop ps fb write fuel i (i * ps) =
        ((natSeq i (numPages ps fb - i)).map
            (fun j => (j, pageSlice ps fb j)), some true) := by
  intro fuel
  induction fuel with
  | zero => intro i h1 h2; omega
  | succ fuel ih =>
    intro i h1 h2
    have hw := hok i h1
    simp only [writeLoop, pageBytes_eq_slice, hw, if_true]
    by_cases hstop : fb.length ≤ min (i * ps + ps) fb.length
    · have hlast : numPages ps fb ≤ i + 1 := (writeStop_iff ps hps fb i).1 hstop
      have hn : numPages ps fb - i = 1 := by omega
      rw [if_pos hstop, hn]
      simp [natSeq]
    · have hmore : i + 1 < numPages ps fb := by
        have := (writeStop_iff ps hps fb i).2
        by_contra hc
        push_neg at hc
        exact hstop (this (by omega))
      rw [if_neg hstop]
      have hoff : i * ps + ps = (i + 1) * ps := by ring
      rw [hoff, ih (i + 1) hmore (by omega)]
      have hn : numPages ps fb - i = (numPages ps fb - (i + 1)) + 1 := by omega
      rw [hn]
      simp [natSeq]

/-- Behaviour of the write loop when pages before `k` succeed and the
write of page `k` raises: pages `i .. k` are attempted in ascending order
and the error propagates (no partial-success result). -/
theorem writeLoop_fail (ps : Nat) (hps : 0 < ps) (fb : Bytes)
    (write : Nat → Bytes → Bool) (k : Nat) (hk : k < numPages ps fb)
    (hok : ∀ i, i < k → write i (pageSlice ps fb i) = true)
    (hfail : write k (pageSlice ps fb k) = false) :
    ∀ fuel i, i ≤ k → k + 1 - i ≤ fuel →
      writeLoop ps fb write fuel i (i * ps) =
        ((natSeq i (k + 1 - i)).map (fun j => (j, pageSlice ps fb j)),
         none) := by
  intro fuel
  induction fuel with
  | zero => intro i h1 h2; omega
  | succ fuel ih =>
    intro i h1 h2
    rcases Nat.eq_or_lt_of_le h1 with heq | hlt
    · subst heq
      have hn : i + 1 - i = 1 := by omega
      simp only [writeLoop, pageBytes_eq_slice, hfail, if_false, hn]
      simp [natSeq]
    · have hw := hok i hlt
      simp only [writeLoop, pageBytes_eq_slice, hw, if_true]
      have hmore : i + 1 < numPages ps fb := by omega
      have hstop : ¬(fb.length ≤ min (i * ps + ps) fb.length) := by
        intro hc
        have := (writeStop_iff ps hps fb i).1 hc
        omega
      rw [if_neg hstop]
      have hoff : i * ps + ps = (i + 1) * ps := by ring
      rw [hoff, ih (i + 1) (by omega) (by omega)]
      have hn : k + 1 - i = (k + 1 - (i + 1)) + 1 := by omega
      rw [hn]
      simp [natSeq]

/-- C5 — the bulk write splits the input into consecutive page-sized
slices written sequentially at ascending page indices 0, 1, 2, ...; if
every page write succeeds it returns success after writing all pages, and
the first failing page write aborts the whole operation with a raised
error (`none`) — it never returns a partial-success result. -/
theorem c5_bulk_write_atomic (ps : Nat) (hps : 0 < ps) (fb : Bytes)
    (write : Nat → Bytes → Bool) (k : Nat) :
    ((∀ i, i < numPages ps fb → write i (pageSlice ps fb i) = true) →
      allPageGeneratorWrite ps fb write =
        ((natSeq 0 (numPages ps fb)).map (fun j => (j, pageSlice ps fb j)),
         some true)) ∧
    (k < numPages ps fb →
     (∀ i, i < k → write i (pageSlice ps fb i) = true) →
     write k (pageSlice ps fb k) = false →
      allPageGeneratorWrite ps fb write =
        ((natSeq 0 (k + 1)).map (fun j => (j, pageSlice ps fb j)),
         none)) := by
  constructor
  · intro hok
    have h := writeLoop_ok ps hps fb write hok (numPages ps fb) 0
      (lt_of_lt_of_le Nat.one_pos (le_max_left 1 _)) (by omega)
    simpa [allPageGeneratorWrite] using h
  · intro hk hok hfail
    have h := writeLoop_fail ps hps fb write k hk hok hfail
      (numPages ps fb) 0 (by omega) (by omega)
    simpa [allPageGeneratorWrite] using h

/-- Write oracle for the C5 witness: page 1 raises, all others succeed. -/
def writeFailPage1 (i : Nat) (_ : Bytes) : Bool := decide (i ≠ 1)

/-- Witness for C5: writing 8 bytes with page size 3 (three pages) where
the write of page 1 raises attempts pages 0 and 1 with the slices
`[0,1,2]` and `[3,4,5]`, then aborts with the raised error; and with an
all-succeeding oracle the same input writes all three slices and returns
success. -/
theorem c5_witness :
    allPageGeneratorWrite 3 (List.range 8) writeFailPage1 =
      ([(0, [0, 1, 2]), (1, [3, 4, 5])], none) ∧
    allPageGeneratorWrite 3 (List.range 8) (fun _ _ => true) =
      ([(0, [0, 1, 2]), (1, [3, 4, 5]), (2, [6, 7])], some true) := by
  constructor
  · have h := (c5_bulk_write_atomic 3 (by decide) (List.range 8)
      writeFailPage1 1).2 (by decide) (by decide) (by decide)
    exact h.trans (by decide)
  · have h := (c5_bulk_write_atomic 3 (by decide) (List.range 8)
      (fun _ _ => true) 0).1 (by decide)
    exact h.trans (by decide)

/-- C10 — when every page write succeeds, the bulk write issues exactly
`max(1, ceil(inputLength / pageSize))` page writes (so the empty input
still issues one write, of page 0 with an empty body) and returns
success. -/
theorem c10_write_count (ps : Nat) (hps : 0 < ps) (fb : Bytes)
    (write : Nat → Bytes → Bool)
    (hok : ∀ i, i < numPages ps fb → write i (pageSlice ps fb i) = true) :
    (allPageGeneratorWrite ps fb write).1.length =
      max 1 ((fb.length + ps - 1) / ps) ∧
    (allPageGeneratorWrite ps fb write).2 = some true ∧
    numPages ps [] = 1 ∧ pageSlice ps [] 0 = [] := by
  have h := writeLoop_ok ps hps fb write hok (numPages ps fb) 0
    (lt_of_lt_of_le Nat.one_pos (le_max_left 1 _)) (by omega)
  have h : allPageGeneratorWrite ps fb write =
      ((natSeq 0 (numPages ps fb)).map (fun j => (j, pageSlice ps fb j)),
       some true) := by
    simpa [allPageGeneratorWrite] using h
  refine ⟨?_, ?_, ?_, ?_⟩
  · rw [h]
    simp [natSeq_length, numPages]
  · rw [h]
  · have hdiv : ((0 : Nat) + ps - 1) / ps = 0 :=
      Nat.div_eq_of_lt (by omega)
    simp only [numPages, List.length_nil]
    omega
  · simp [pageSlice]

/-- Witness for C10 at the empty input: one page write, of page 0 with an
empty body, and a success result. -/
theorem c10_witness :
    (allPageGeneratorWrite 4 [] (fun _ _ => true)).1.length =
      max 1 ((List.length ([] : Bytes) + 4 - 1) / 4) ∧
    (allPageGeneratorWrite 4 [] (fun _ _ => true)).2 = some true ∧
    allPageGeneratorWrite 4 [] (fun _ _ => true) = ([(0, [])], some true) :=
  ⟨(c10_write_count 4 (by decide) [] (fun _ _ => true) (by decide)).1,
   (c10_write_count 4 (by decide) [] (fun _ _ => true) (by decide)).2.1,
   by decide⟩

/-- ASCII alphanumeric, the character class `[a-zA-Z0-9]` of the
validation regex in `AlluxioClient._validate_path`. -/
def isProtoChar (c : Char) : Bool :=
  decide ((97 ≤ c.toNat ∧ c.toNat ≤ 122) ∨ (65 ≤ c.toNat ∧ c.toNat ≤ 90) ∨
    (48 ≤ c.toNat ∧ c.toNat ≤ 57))

/-- Whether `re.search(r"^[a-zA-Z0-9]+://", path)` matches: some nonempty
run of ASCII alphanumerics at the start of the string followed by `://`.
Because `:` is not alphanumeric, the regex matches exactly when the
maximal alphanumeric run at the start is nonempty and is followed by the
three characters `://`. -/
def validPathFormat (cs : List Char) : Bool :=
  let run := cs.takeWhile isProtoChar
  decide (1 ≤ run.length) &&
    decide ((cs.drop run.length).take 3 = [':', '/', '/'])

/-- Outcome of the locally executed front of a client operation, before
any network interaction: a raised validation error, a metadata lookup
(`get_file_status`, a network call), an empty-bytes early return, or
proceeding to worker resolution and page requests. -/
inductive FrontOutcome
  | raiseValueError
  | needsMetadata
  | returnEmpty
  | proceedsToFetch
deriving DecidableEq, Repr

/-- The pre-network phase of `AlluxioClient.read_range` (core.py lines
585-614): validate the path, reject negative offsets, resolve
`None`/`-1` lengths through a metadata lookup, return `b""` for
`length == 0` before any worker resolution or page request, reject other
negative lengths, and otherwise proceed to fetch pages.  `length = none`
models Python `None`. -/
def syncReadRangeFront (path : List Char) (offset : Int)
    (length : Option Int) : FrontOutcome :=
  if validPathFormat path = false then .raiseValueError
  else if offset < 0 then .raiseValueError
  else match length with
    | none => .needsMetadata
    | some l =>
      if l = -1 then .needsMetadata
      else if l = 0 then .returnEmpty
      else if l < 0 then .raiseValueError
      else .proceedsToFetch

/-- The pre-network phase of `AlluxioAsyncFileSystem.read_range` (core.py
lines 1643-1669): validate the path, reject negative offsets, and reject
any `length <= 0` other than `-1` with
`ValueError("Length must be a positive integer or -1")` — including
`length == 0`. -/
def asyncReadRangeFront (path : List Char) (offset : Int)
    (length : Int) : FrontOutcome :=
  if validPathFormat path = false then .raiseValueError
  else if offset < 0 then .raiseValueError
  else if length ≤ 0 ∧ length ≠ -1 then .raiseValueError
  else .proceedsToFetch

/-- The validation performed by `AlluxioClient.cp` (core.py lines
868-898) before issuing its HTTP request: only `path1`, the source, is
passed to `_validate_path`; the destination `path2` is used unvalidated
in the request URL. -/
def cpFront (path1 : List Char) (_path2 : List Char) : FrontOutcome :=
  if validPathFormat path1 = false then .raiseValueError
  else .proceedsToFetch

/-- The validation performed by `AlluxioClient.mv` (core.py lines
808-818): both paths are validated before the request. -/
def mvFront (path1 path2 : List Char) : FrontOutcome :=
  if validPathFormat path1 = false then .raiseValueError
  else if validPathFormat path2 = false then .raiseValueError
  else .proceedsToFetch

/-- The validation-then-network shape shared by every public operation
that takes a single path: `_validate_path(path)` is the first statement,
before worker resolution and before the HTTP request, so an invalid path
raises locally and no network call happens. -/
def singlePathFront (path : List Char) : FrontOutcome :=
  if validPathFormat path = false then .raiseValueError
  else .proceedsToFetch

/-- Pre-network validation of `AlluxioClient.listdir` (core.py line
214). -/
def listdirFront (path : List Char) : FrontOutcome := singlePathFront path

/-- Pre-network validation of `AlluxioClient.get_file_status` (core.py
line 276). -/
def getFileStatusFront (path : List Char) : FrontOutcome :=
  singlePathFront path

/-- Pre-network validation of `AlluxioClient.load` (core.py line 323). -/
def loadFront (path : List Char) : FrontOutcome := singlePathFront path

/-- Pre-network validation of `AlluxioClient.submit_load` (core.py line
346). -/
def submitLoadFront (path : List Char) : FrontOutcome := singlePathFront path

/-- Pre-network validation of `AlluxioClient.stop_load` (core.py line
384). -/
def stopLoadFront (path : List Char) : FrontOutcome := singlePathFront path

/-- Pre-network validation of `AlluxioClient.load_progress` (core.py line
429). -/
def loadProgressFront (path : List Char) : FrontOutcome :=
  singlePathFront path

/-- Pre-network validation of `AlluxioClient.read` (core.py lines
444-481): its own `_validate_path` call is commented out, but its first
action is `get_file_status(file_path)`, which validates the path before
its network call; the `ValueError` surfaces (re-wrapped by `read`'s
`except` clause) before any network call. -/
def readFront (path : List Char) : FrontOutcome := singlePathFront path

/-- Pre-network validation of `AlluxioClient.read_file_range` (core.py
line 494). -/
def readFileRangeFront (path : List Char) : FrontOutcome :=
  singlePathFront path

/-- Pre-network validation of `AlluxioClient.read_chunked` (core.py line
529). -/
def readChunkedFront (path : List Char) : FrontOutcome :=
  singlePathFront path

/-- Pre-network validation of `AlluxioClient.write` (core.py line 657). -/
def writeFront (path : List Char) : FrontOutcome := singlePathFront path

/-- Pre-network validation of `AlluxioClient.write_chunked` (core.py line
692). -/
def writeChunkedFront (path : List Char) : FrontOutcome :=
  singlePathFront path

/-- Pre-network validation of `AlluxioClient.write_page` (core.py line
728). -/
def writePageFront (path : List Char) : FrontOutcome := singlePathFront path

/-- Pre-network validation of `AlluxioClient.mkdir` (core.py line 760). -/
def mkdirFront (path : List Char) : FrontOutcome := singlePathFront path

/-- Pre-network validation of `AlluxioClient.touch` (core.py line 787). -/
def touchFront (path : List Char) : FrontOutcome := singlePathFront path

/-- Pre-network validation of `AlluxioClient.rm` (core.py line 847). -/
def rmFront (path : List Char) : FrontOutcome := singlePathFront path

/-- Pre-network validation of `AlluxioClient.tail` (core.py line 909). -/
def tailFront (path : List Char) : FrontOutcome := singlePathFront path

/-- Pre-network validation of `AlluxioClient.head` (core.py line 937). -/
def headFront (path : List Char) : FrontOutcome := singlePathFront path

/-- Pre-network validation of `AlluxioAsyncFileSystem.listdir` (core.py
line 1547); the asynchronous client's `_validate_path` (lines 1874-1882)
uses the same regex as the synchronous client's. -/
def asyncListdirFront (path : List Char) : FrontOutcome :=
  singlePathFront path

/-- Pre-network validation of `AlluxioAsyncFileSystem.get_file_status`
(core.py line 1602). -/
def asyncGetFileStatusFront (path : List Char) : FrontOutcome :=
  singlePathFront path

/-- Pre-network validation of `AlluxioAsyncFileSystem.load` (core.py line
1639). -/
def asyncLoadFront (path : List Char) : FrontOutcome := singlePathFront path

/-- Pre-network validation of `AlluxioAsyncFileSystem.write_page`
(core.py line 1685). -/
def asyncWritePageFront (path : List Char) : FrontOutcome :=
  singlePathFront path

/-- Counterexample for C9: `cp` with a valid source and the destination
`"relative/path"` (which fails the protocol-prefix check) proceeds
straight to the network request instead of raising a local validation
error, so not every path argument of every public operation is
validated. -/
theorem c9_counterexample :
    validPathFormat ("relative/path".toList) = false ∧
    cpFront ("s3://bucket/src".toList) ("relative/path".toList) =
      FrontOutcome.proceedsToFetch := by
  constructor
  · decide
  · decide

/-- C9 (amended) — for every public operation of both clients and every
path argument it takes, a path failing the `^[A-Za-z0-9]+://` check
causes a locally raised validation error before any network call — with
the single exception of the copy operation's destination: `cp` validates
only its source, and with a valid source it proceeds to the network
request whatever its destination is.  The conjuncts cover, in order:
the seventeen single-path synchronous operations, the synchronous
`read_range`, both argument positions of `mv`, the source position of
`cp`, the unvalidated destination position of `cp`, and the asynchronous
client's `listdir`, `get_file_status`, `load`, `read_range` and
`write_page`. -/
theorem c9_every_path_validated_except_cp_dst
    (p other src : List Char) (offset : Int) (length : Option Int)
    (alen : Int) (hbad : validPathFormat p = false)
    (hsrc : validPathFormat src = true) :
    listdirFront p = FrontOutcome.raiseValueError ∧
    getFileStatusFront p = FrontOutcome.raiseValueError ∧
    loadFront p = FrontOutcome.raiseValueError ∧
    submitLoadFront p = FrontOutcome.raiseValueError ∧
    stopLoadFront p = FrontOutcome.raiseValueError ∧
    loadProgressFront p = FrontOutcome.raiseValueError ∧
    readFront p = FrontOutcome.raiseValueError ∧
    readFileRangeFront p = FrontOutcome.raiseValueError ∧
    readChunkedFront p = FrontOutcome.raiseValueError ∧
    writeFront p = FrontOutcome.raiseValueError ∧
    writeChunkedFront p = FrontOutcome.raiseValueError ∧
    writePageFront p = FrontOutcome.raiseValueError ∧
    mkdirFront p = FrontOutcome.raiseValueError ∧
    touchFront p = FrontOutcome.raiseValueError ∧
    rmFront p = FrontOutcome.raiseValueError ∧
    tailFront p = FrontOutcome.raiseValueError ∧
    headFront p = FrontOutcome.raiseValueError ∧
    syncReadRangeFront p offset length = FrontOutcome.raiseValueError ∧
    mvFront p other = FrontOutcome.raiseValueError ∧
    mvFront other p = FrontOutcome.raiseValueError ∧
    cpFront p other = FrontOutcome.raiseValueError ∧
    cpFront src p = FrontOutcome.proceedsToFetch ∧
    asyncListdirFront p = FrontOutcome.raiseValueError ∧
    asyncGetFileStatusFront p = FrontOutcome.raiseValueError ∧
    asyncLoadFront p = FrontOutcome.raiseValueError ∧
    asyncReadRangeFront p offset alen = FrontOutcome.raiseValueError ∧
    asyncWritePageFront p = FrontOutcome.raiseValueError := by
  have hstep : singlePathFront p = FrontOutcome.raiseValueError := by
    simp [singlePathFront, hbad]
  have hsync : syncReadRangeFront p offset length =
      FrontOutcome.raiseValueError := by
    unfold syncReadRangeFront
    rw [if_pos hbad]
  have hasync : asyncReadRangeFront p offset alen =
      FrontOutcome.raiseValueError := by
    unfold asyncReadRangeFront
    rw [if_pos hbad]
  have hmv1 : mvFront p other = FrontOutcome.raiseValueError := by
    unfold mvFront
    rw [if_pos hbad]
  have hmv2 : mvFront other p = FrontOutcome.raiseValueError := by
    unfold mvFront
    by_cases h : validPathFormat other = false
    · rw [if_pos h]
    · rw [if_neg h, if_pos hbad]
  have hcp1 : cpFront p other = FrontOutcome.raiseValueError := by
    unfold cpFront
    rw [if_pos hbad]
  have hcp2 : cpFront src p = FrontOutcome.proceedsToFetch := by
    unfold cpFront
    rw [if_neg (by simp [hsrc])]
  exact ⟨hstep, hstep, hstep, hstep, hstep, hstep, hstep, hstep, hstep,
    hstep, hstep, hstep, hstep, hstep, hstep, hstep, hstep, hsync,
    hmv1, hmv2, hcp1, hcp2, hstep, hstep, hstep, hasync, hstep⟩

/-- Witness for C9's amended theorem at the concrete invalid path
`"relative/path"` and the concrete valid paths `"s3://bucket/b"` and
`"s3://bucket/src"`. -/
theorem c9_witness :
    listdirFront ("relative/path".toList) =
      FrontOutcome.raiseValueError ∧
    cpFront ("relative/path".toList) ("s3://bucket/b".toList) =
      FrontOutcome.raiseValueError ∧
    cpFront ("s3://bucket/src".toList) ("relative/path".toList) =
      FrontOutcome.proceedsToFetch ∧
    asyncWritePageFront ("relative/path".toList) =
      FrontOutcome.raiseValueError := by
  have h := c9_every_path_validated_except_cp_dst
    ("relative/path".toList) ("s3://bucket/b".toList)
    ("s3://bucket/src".toList) 0 none 1 (by decide) (by decide)
  exact ⟨h.1, h.2.2.2.2.2.2.2.2.2.2.2.2.2.2.2.2.2.2.2.2.1,
    h.2.2.2.2.2.2.2.2.2.2.2.2.2.2.2.2.2.2.2.2.2.1,
    h.2.2.2.2.2.2.2.2.2.2.2.2.2.2.2.2.2.2.2.2.2.2.2.2.2.2⟩

/-- Counterexample for C4: in the asynchronous client a range read of
length 0 on a valid path and offset raises a `ValueError` instead of
returning an empty result. -/
theorem c4_counterexample :
    asyncReadRangeFront ("s3://bucket/file".toList) 0 0 =
      FrontOutcome.raiseValueError ∧
    FrontOutcome.raiseValueError ≠ FrontOutcome.returnEmpty := by
  constructor
  · decide
  · decide

/-- C4 (amended) — for every valid path and non-negative offset, a range
read with `length == 0` in the synchronous client returns an empty byte
result before any worker resolution, metadata lookup or page request,
while the asynchronous client rejects `length == 0` with a locally raised
`ValueError` (also before any network call). -/
theorem c4_zero_length_read (path : List Char) (offset : Int)
    (hpath : validPathFormat path = true) (hoff : 0 ≤ offset) :
    syncReadRangeFront path offset (some 0) = FrontOutcome.returnEmpty ∧
    asyncReadRangeFront path offset 0 = FrontOutcome.raiseValueError := by
  constructor
  · unfold syncReadRangeFront
    rw [if_neg (by simp [hpath]), if_neg (by omega)]
    norm_num
  · unfold asyncReadRangeFront
    rw [if_neg (by simp [hpath]), if_neg (by omega)]
    norm_num

/-- Witness for C4's amended theorem at a concrete valid path and
offset. -/
theorem c4_witness :
    syncReadRangeFront ("s3://bucket/file".toList) 0 (some 0) =
      FrontOutcome.returnEmpty ∧
    asyncReadRangeFront ("s3://bucket/file".toList) 0 0 =
      FrontOutcome.raiseValueError :=
  c4_zero_length_read ("s3://bucket/file".toList) 0 (by decide) (by decide)

/-- The `LoadState` enum of core.py. -/
inductive LoadState
  | RUNNING
  | VERIFYING
  | STOPPED
  | SUCCEEDED
  | FAILED
deriving DecidableEq, Repr

/-- Whether `pat` occurs at the start of `s`. -/
def matchesAt : List Char → List Char → Bool
  | [], _ => true
  | _ :: _, [] => false
  | p :: ps, c :: cs => p == c && matchesAt ps cs

/-- Python's `pat in s` substring test. -/
def hasSubChars (pat : List Char) : List Char → Bool
  | [] => matchesAt pat []
  | c :: cs => matchesAt pat (c :: cs) || hasSubChars pat cs

/-- The characters of the string `"FAILED"`. -/
def failedChars : List Char := ['F', 'A', 'I', 'L', 'E', 'D']

/-- Python's `LoadState(state)` enum constructor: `some` on an exact enum
value, `none` for the `ValueError` it raises otherwise. -/
def exactLoadState (s : List Char) : Option LoadState :=
  if s = "RUNNING".toList then some .RUNNING
  else if s = "VERIFYING".toList then some .VERIFYING
  else if s = "STOPPED".toList then some .STOPPED
  else if s = "SUCCEEDED".toList then some .SUCCEEDED
  else if s = "FAILED".toList then some .FAILED
  else none

/-- Parsing of the `jobState` field by
`AlluxioClient._load_progress_internal` (core.py lines 1268-1286): a state
string containing `"FAILED"` as a substring is normalized to `FAILED`
before the exact enum constructor is tried; `none` models the raised
(and re-wrapped) error for a non-enum value. -/
def syncParseJobState (s : List Char) : Option LoadState :=
  if hasSubChars failedChars s then some .FAILED else exactLoadState s

/-- Parsing of the `jobState` field by
`AlluxioAsyncFileSystem._load_progress_internal` (core.py lines
1805-1812): only the exact enum constructor `LoadState(content["jobState"])`
is applied — there is no `"FAILED"`-substring normalization. -/
def asyncParseJobState (s : List Char) : Option LoadState :=
  exactLoadState s

/-- Counterexample for C6: the asynchronous client's load-progress parser
raises on the state string `"ERRORED_FAILED"` (it is not an exact enum
value) instead of normalizing it to `FAILED`, so the claim fails for one
of its two cited parsers. -/
theorem c6_counterexample :
    hasSubChars failedChars ("ERRORED_FAILED".toList) = true ∧
    asyncParseJobState ("ERRORED_FAILED".toList) = none := by
  constructor
  · decide
  · decide

/-- C6 (amended) — in the synchronous client, a load-progress `jobState`
string parses to `FAILED` exactly when it contains `"FAILED"` as a
substring (in particular `"ERRORED_FAILED"` does, even though it is not
an exact enum value); the asynchronous client's parser accepts only exact
enum values. -/
theorem c6_failed_normalization (s : List Char) :
    syncParseJobState s = some LoadState.FAILED ↔
      hasSubChars failedChars s = true := by
  constructor
  · intro h
    by_contra hc
    simp only [Bool.not_eq_true] at hc
    unfold syncParseJobState at h
    rw [hc] at h
    simp only [Bool.false_eq_true, if_false] at h
    unfold exactLoadState at h
    split at h
    · exact LoadState.noConfusion (Option.some.inj h)
    · split at h
      · exact LoadState.noConfusion (Option.some.inj h)
      · split at h
        · exact LoadState.noConfusion (Option.some.inj h)
        · split at h
          · exact LoadState.noConfusion (Option.some.inj h)
          · split at h
            · rename_i hs
              rw [hs] at hc
              exact absurd hc (by decide)
            · exact Option.noConfusion h
  · intro h
    unfold syncParseJobState
    rw [h]
    simp

/-- Outcome of the load lifecycle as seen by the caller: a returned
boolean, a raised exception, or still polling when the observation window
(the fuel) ends. -/
inductive LoadOutcome
  | returns (b : Bool)
  | raises
  | running
deriving DecidableEq, Repr

/-- Boolean test used to state that a load flow never raises. -/
def LoadOutcome.isRaise : LoadOutcome → Bool
  | .raises => true
  | _ => false

/-- Execution trace of a load lifecycle: how many progress polls were
issued, how many 10-unit sleeps actually happened, and the outcome. -/
structure LoadTrace where
  polls : Nat
  sleeps : Nat
  outcome : LoadOutcome
deriving DecidableEq, Repr

/-- The polling loop of `AlluxioClient._load_file` (core.py lines
1237-1260).  `poll n` is the result of the `n`-th
`_load_progress_internal` call (`none` models a raised transport or
protocol error), `clock n` the `time.time()` reading taken in the

sleep condition after the `n`-th poll, and `stopTime` the deadline
computed at submission.  After a non-terminal poll the loop sleeps 10
units when `timeout is None or stop_time - time.time() >= 10`, and
otherwise returns `False` without issuing a further poll. -/
def syncLoadLoop (poll : Nat → Option LoadState) (clock : Nat → Int)
    (timeout : Option Int) (stopTime : Int) : Nat → Nat → LoadTrace
  | 0, _ => ⟨0, 0, .running⟩
  | fuel + 1, n =>
    match poll n with
    | none => ⟨1, 0, .raises⟩
    | some .SUCCEEDED => ⟨1, 0, .returns true⟩
    | some .FAILED => ⟨1, 0, .returns false⟩
    | some .STOPPED => ⟨1, 0, .returns false⟩
    | some _ =>
      if timeout = none ∨ 10 ≤ stopTime - clock n then
        let t := syncLoadLoop poll clock timeout stopTime fuel (n + 1)
        ⟨t.polls + 1, t.sleeps + 1, t.outcome⟩
      else ⟨1, 0, .returns false⟩

/-- The body of `AlluxioClient._load_file` before its surrounding
`try`/`except`: submit (`none` models a raised submission error, `some b`
the `success` field), return `False` on a rejected submission, otherwise
poll with deadline `startTime + timeout`. -/
def syncLoadFileBody (submit : Option Bool) (poll : Nat → Option LoadState)
    (clock : Nat → Int) (timeout : Option Int) (startTime : Int)
    (fuel : Nat) : LoadTrace :=
  match submit with
  | none => ⟨0, 0, .raises⟩
  | some false => ⟨0, 0, .returns false⟩
  | some true =>
    syncLoadLoop poll clock timeout
      (match timeout with
       | none => 0
       | some t => startTime + t) fuel 0

/-- `AlluxioClient._load_file`: the whole body runs inside
`try ... except Exception: return False`, so every raise becomes a
`False` return. -/
def syncLoadFile (submit : Option Bool) (poll : Nat → Option LoadState)
    (clock : Nat → Int) (timeout : Option Int) (startTime : Int)
    (fuel : Nat) : LoadTrace :=
  match syncLoadFileBody submit poll clock timeout startTime fuel with
  | ⟨p, s, .raises⟩ => ⟨p, s, .returns false⟩
  | t => t

/-- The polling loop of `AlluxioAsyncFileSystem._load_file` (core.py
lines 1782-1803).  Structurally identical to the synchronous loop except
that (a) no exception handler surrounds the flow, so a raising poll
propagates, and (b) the sleep branch evaluates `asyncio.sleep(10)`
without awaiting the coroutine it returns, so no sleep is ever performed
(`sleeps` stays 0). -/
def asyncLoadLoop (poll : Nat → Option LoadState) (clock : Nat → Int)
    (timeout : Option Int) (stopTime : Int) : Nat → Nat → LoadTrace
  | 0, _ => ⟨0, 0, .running⟩
  | fuel + 1, n =>
    match poll n with
    | none => ⟨1, 0, .raises⟩
    | some .SUCCEEDED => ⟨1, 0, .returns true⟩
    | some .FAILED => ⟨1, 0, .returns false⟩
    | some .STOPPED => ⟨1, 0, .returns false⟩
    | some _ =>
      if timeout = none ∨ 10 ≤ stopTime - clock n then
        let t := asyncLoadLoop poll clock timeout stopTime fuel (n + 1)
        ⟨t.polls + 1, t.sleeps, t.outcome⟩
      else ⟨1, 0, .returns false⟩

/-- `AlluxioAsyncFileSystem._load_file` (core.py lines 1763-1803): no
`try`/`except` wraps the flow, so raised errors reach the caller. -/
def asyncLoadFile (submit : Option Bool) (poll : Nat → Option LoadState)
    (clock : Nat → Int) (timeout : Option Int) (startTime : Int)
    (fuel : Nat) : LoadTrace :=
  match submit with
  | none => ⟨0, 0, .raises⟩
  | some false => ⟨0, 0, .returns false⟩
  | some true =>
    asyncLoadLoop poll clock timeout
      (match timeout with
       | none => 0
       | some t => startTime + t) fuel 0

/-- Counterexample for C7: in the asynchronous client a raised error
during the first progress poll propagates to the caller of the load flow
instead of being converted to a `False` return. -/
theorem c7_counterexample :
    (asyncLoadFile (some true) (fun _ => none) (fun _ => 0) none 0
      5).outcome = LoadOutcome.raises := by
  decide

/-- C7 (amended) — in the synchronous client the load lifecycle never
raises: for every submission result, poll behaviour, clock, timeout and
observation window, the flow's outcome is not a raise (every transport or
protocol error is converted to a `False` return by the surrounding
exception handler); in the asynchronous client raised errors propagate. -/
theorem c7_sync_load_never_raises (submit : Option Bool)
    (poll : Nat → Option LoadState) (clock : Nat → Int)
    (timeout : Option Int) (startTime : Int) (fuel : Nat) :
    (syncLoadFile submit poll clock timeout startTime
      fuel).outcome.isRaise = false := by
  unfold syncLoadFile
  rcases h : syncLoadFileBody submit poll clock timeout startTime fuel with
    ⟨p, s, o⟩
  cases o <;> simp [LoadOutcome.isRaise]

/-- Poll oracle for C8: non-terminal (`RUNNING`) on the first two polls,
then `SUCCEEDED`. -/
def pollRunRunSucceed (n : Nat) : Option LoadState :=
  if n < 2 then some LoadState.RUNNING else some LoadState.SUCCEEDED

/-- C8 — concrete evaluation of the polling loops showing the missing
`await` on `asyncio.sleep(10)`.  With submission accepted, no deadline,
and polls `RUNNING`, `RUNNING`, `SUCCEEDED`: the synchronous client polls
three times and sleeps twice (once after each non-terminal poll), but the
asynchronous client polls three times and sleeps zero times — the created
sleep coroutine is never awaited, so no delay happens between polls.
With `timeout = 5` and a non-terminal first poll, the synchronous client
returns `False` after exactly one poll and no sleep, because fewer than
10 units remain before the deadline. -/
theorem c8_sleep_behaviour :
    syncLoadFile (some true) pollRunRunSucceed (fun _ => 0) none 0 9 =
      ⟨3, 2, .returns true⟩ ∧
    asyncLoadFile (some true) pollRunRunSucceed (fun _ => 0) none 0 9 =
      ⟨3, 0, .returns true⟩ ∧
    syncLoadFile (some true) (fun _ => some LoadState.RUNNING)
      (fun _ => 0) (some 5) 0 9 = ⟨1, 0, .returns false⟩ := by
  refine ⟨?_, ?_, ?_⟩
  · decide
  · decide
  · decide
